import Mathlib

/-!
Verification of the tinky-status-message repository: a StatusMessage
terminal-UI component, its theme (src/src/index.ts), and a Unicode-support
detector (src/src/utils/unicode.ts).  The TypeScript sources are embedded
shallowly below; theorems settle the frozen claims about them.
-/

namespace TinkyStatusMessage

/-! ## String helpers

TypeScript `s.includes(pat)` is contiguous-substring containment over the
characters of `s`; `s.toLowerCase()` lower-cases each character (for the
ASCII pattern "utf-8" the per-character ASCII lowering below is faithful).
-/

/-- Does the pattern match at the very start of the character list? -/
def matchesAt : List Char → List Char → Bool
  | [], _ => true
  | _ :: _, [] => false
  | p :: ps, c :: cs => p == c && matchesAt ps cs

/-- Does `pat` occur as a contiguous substring of `s` (as character lists)? -/
def hasSubstr (pat : List Char) : List Char → Bool
  | [] => pat.isEmpty
  | c :: rest => matchesAt pat (c :: rest) || hasSubstr pat rest

/-- TypeScript `s.includes(pat)`. -/
def containsStr (s pat : String) : Bool :=
  hasSubstr pat.data s.data

/-- TypeScript `s.toLowerCase()`, restricted to per-character lowering. -/
def toLowerStr (s : String) : String :=
  String.mk (s.data.map Char.toLower)

/-! ## Unicode support detector (src/src/utils/unicode.ts)

`env` is a mapping from string keys to optional string values; a key that
is absent and a key bound to `undefined` both read back as `none`.  The
TypeScript `env.K || ""` idiom (empty string is falsy) is `envGet`.
-/

/-- Environment-like mapping consumed by `isUnicodeSupported`. -/
abbrev Env : Type := String → Option String

/-- TypeScript `env.K || ""`: the value at key `k`, defaulting to the
empty string when the key is absent or `undefined`. -/
def envGet (env : Env) (k : String) : String :=
  (env k).getD ""

/-- Source local `hasUtf8Locale`: the `LANG` value, lower-cased, contains
the substring "utf-8". -/
def hasUtf8Locale (env : Env) : Bool :=
  containsStr (toLowerStr (envGet env "LANG")) "utf-8"

/-- Source local `hasModernTerminal`: `COLORTERM` contains "truecolor" or
"24bit", or `TERM_PROGRAM` contains "vscode", "iTerm.app" or
"Terminal.app". -/
def hasModernTerminal (env : Env) : Bool :=
  containsStr (envGet env "COLORTERM") "truecolor" ||
  containsStr (envGet env "COLORTERM") "24bit" ||
  containsStr (envGet env "TERM_PROGRAM") "vscode" ||
  containsStr (envGet env "TERM_PROGRAM") "iTerm.app" ||
  containsStr (envGet env "TERM_PROGRAM") "Terminal.app"

/-- Source local `isWindows`: the `platform` value equals "win32". -/
def isWindows (env : Env) : Bool :=
  envGet env "platform" == "win32"

/-- `isUnicodeSupported` from src/src/utils/unicode.ts: the source returns
`hasUtf8Locale || hasModernTerminal || !isWindows`. -/
def isUnicodeSupported (env : Env) : Bool :=
  hasUtf8Locale env || hasModernTerminal env || !isWindows env

/-- Modelled from the spec: the sequential else-chain of spec section 4.2
steps 1 to 4, written to compare with the source `isUnicodeSupported`. -/
def unicodeSpecChain (env : Env) : Bool :=
  if hasUtf8Locale env then true
  else if containsStr (envGet env "COLORTERM") "truecolor" ||
          containsStr (envGet env "COLORTERM") "24bit" then true
  else if containsStr (envGet env "TERM_PROGRAM") "vscode" ||
          containsStr (envGet env "TERM_PROGRAM") "iTerm.app" ||
          containsStr (envGet env "TERM_PROGRAM") "Terminal.app" then true
  else if envGet env "platform" == "win32" then false
  else true

/-- The env with no keys at all (TypeScript default argument). -/
def emptyEnv : Env := fun _ => none

/-- Rebind one key of an env to a given optional value. -/
def setEnv (env : Env) (k : String) (v : Option String) : Env :=
  fun j => if j == k then v else env j

/-! ## Variants and theme (src/src/index.ts)

Style records are modelled as association lists of attribute name and
value, so that "exactly the record with this one field" is expressible.
-/

/-- The closed four-value variant enumeration. -/
inductive StatusMessageVariant : Type where
  | info
  | success
  | error
  | warning
deriving DecidableEq, Repr

/-- A single style attribute value (a color name or a numeric layout
attribute). -/
inductive StyleValue : Type where
  | str (s : String)
  | nat (n : Nat)
deriving DecidableEq, Repr

/-- A style record: the attribute bag a theme style function produces. -/
abbrev StyleRecord : Type := List (String × StyleValue)

/-- Source constant `colorByVariant` from src/src/index.ts. -/
def colorByVariant : StatusMessageVariant → String
  | .success => "green"
  | .error => "red"
  | .warning => "yellow"
  | .info => "blue"

/-- Props passed to the theme style functions. -/
structure StatusMessageThemeProps : Type where
  variant : StatusMessageVariant
deriving DecidableEq, Repr

/-- The four style slots of the StatusMessage component theme.  The
source declares `container`, `iconContainer` and `message` with zero
parameters; the theme system invokes every slot with the theme props, so
those three are modelled as functions that ignore their argument. -/
structure StatusMessageStyles : Type where
  container : StatusMessageThemeProps → StyleRecord
  iconContainer : StatusMessageThemeProps → StyleRecord
  icon : StatusMessageThemeProps → StyleRecord
  message : StatusMessageThemeProps → StyleRecord

/-- A component theme bundles its style slots. -/
structure ComponentTheme : Type where
  styles : StatusMessageStyles

/-- Source constant `statusMessageTheme` from src/src/index.ts. -/
def statusMessageTheme : ComponentTheme :=
  { styles :=
    { container := fun _ => [("columnGap", StyleValue.nat 1)]
      iconContainer := fun _ => [("flexShrink", StyleValue.nat 0)]
      icon := fun props => [("color", StyleValue.str (colorByVariant props.variant))]
      message := fun _ => [] } }

/-! ## StatusMessage component (src/src/components/StatusMessage.tsx)

The render tree emitted by the component: `box` nodes carry a style
record and an ordered child list; `text` nodes carry a style record and
either a plain string (the icon) or the caller's content of type `α`
(the `children` prop, any renderable value, forwarded verbatim).
`useComponentTheme` with the default theme resolves each style slot of
`statusMessageTheme` at the given props; `useFigures` is the injected
symbol-set capability, modelled as the `Figures` record below.
-/

/-- The symbol set injected by the `useFigures` collaborator. -/
structure Figures : Type where
  info : String
  tick : String
  cross : String
  warning : String
deriving DecidableEq, Repr

/-- A renderable tree over content type `α`. -/
inductive RenderNode (α : Type) : Type where
  | box (style : StyleRecord) (children : List (RenderNode α))
  | text (style : StyleRecord) (content : String ⊕ α)

/-- Source local `iconByVariant` from StatusMessage.tsx: the icon record
built per render from the injected symbol set. -/
def iconByVariant (figures : Figures) : StatusMessageVariant → String
  | .info => figures.info
  | .success => figures.tick
  | .error => figures.cross
  | .warning => figures.warning

/-- The `StatusMessage` component from StatusMessage.tsx, rendered with
the default theme: an outer box with the resolved container styles
holding an inner non-shrinking box that wraps the icon text node,
followed by the message text node carrying `children` verbatim. -/
def StatusMessage {α : Type} (figures : Figures)
    (variant : StatusMessageVariant) (children : α) : RenderNode α :=
  let styles := statusMessageTheme.styles
  let icon := iconByVariant figures variant
  RenderNode.box (styles.container ⟨variant⟩)
    [ RenderNode.box (styles.iconContainer ⟨variant⟩)
        [RenderNode.text (styles.icon ⟨variant⟩) (Sum.inl icon)],
      RenderNode.text (styles.message ⟨variant⟩) (Sum.inr children) ]

mutual

/-- All text contents of a render tree, in traversal order. -/
def nodeTexts {α : Type} : RenderNode α → List (String ⊕ α)
  | .box _ children => nodesTexts children
  | .text _ c => [c]

/-- All text contents of a list of render trees, in traversal order. -/
def nodesTexts {α : Type} : List (RenderNode α) → List (String ⊕ α)
  | [] => []
  | n :: ns => nodeTexts n ++ nodesTexts ns

end

/-! ## Sanity checks on the spec's test vectors -/

example : isUnicodeSupported (setEnv emptyEnv "platform" (some "win32")) = false := by decide

example :
    isUnicodeSupported
      (setEnv (setEnv emptyEnv "platform" (some "win32")) "LANG" (some "en_US.UTF-8")) = true := by
  decide

example :
    isUnicodeSupported
      (setEnv (setEnv emptyEnv "platform" (some "win32")) "COLORTERM" (some "truecolor")) = true := by
  decide

example :
    isUnicodeSupported
      (setEnv (setEnv emptyEnv "platform" (some "win32")) "TERM_PROGRAM" (some "iTerm.app")) = true := by
  decide

example : isUnicodeSupported emptyEnv = true := by decide

/-! ## Helper lemmas (shared across claims) -/

/-- The spec's sequential else-chain computes the same boolean as the
source's flat disjunction. -/
theorem unicode_chain_flat (env : Env) :
    unicodeSpecChain env = isUnicodeSupported env := by
  unfold unicodeSpecChain isUnicodeSupported hasModernTerminal isWindows
  cases hasUtf8Locale env <;>
    cases containsStr (envGet env "COLORTERM") "truecolor" <;>
    cases containsStr (envGet env "COLORTERM") "24bit" <;>
    cases containsStr (envGet env "TERM_PROGRAM") "vscode" <;>
    cases containsStr (envGet env "TERM_PROGRAM") "iTerm.app" <;>
    cases containsStr (envGet env "TERM_PROGRAM") "Terminal.app" <;>
    cases envGet env "platform" == "win32" <;> rfl

/-- The source's result, as a propositional disjunction. -/
theorem unicode_flat_iff (env : Env) :
    isUnicodeSupported env = true ↔
      hasUtf8Locale env = true ∨ hasModernTerminal env = true ∨
        envGet env "platform" ≠ "win32" := by
  unfold isUnicodeSupported isWindows
  simp [Bool.or_eq_true, Bool.not_eq_true', beq_eq_false_iff_ne, or_assoc]

/-- `isUnicodeSupported` factors through `envGet` at the four consulted
keys. -/
theorem unicode_envGet_congr (env1 env2 : Env)
    (hL : envGet env1 "LANG" = envGet env2 "LANG")
    (hC : envGet env1 "COLORTERM" = envGet env2 "COLORTERM")
    (hT : envGet env1 "TERM_PROGRAM" = envGet env2 "TERM_PROGRAM")
    (hP : envGet env1 "platform" = envGet env2 "platform") :
    isUnicodeSupported env1 = isUnicodeSupported env2 := by
  unfold isUnicodeSupported hasUtf8Locale hasModernTerminal isWindows
  rw [hL, hC, hT, hP]

/-- Rebinding a key to `some ""` and to `none` read back identically. -/
theorem envGet_setEnv_empty (env : Env) (k j : String) :
    envGet (setEnv env k (some "")) j = envGet (setEnv env k none) j := by
  unfold envGet setEnv
  cases h : j == k <;> simp [h]

/-! ## Claim theorems -/

/-- Claim C1: for every env mapping, `isUnicodeSupported env` follows the
spec section 4.2 algorithm: true if the lower-cased `LANG` value contains
"utf-8"; else true if `COLORTERM` contains "truecolor" or "24bit"; else
true if `TERM_PROGRAM` contains "vscode", "iTerm.app" or "Terminal.app";
else false if the `platform` value equals "win32" and true otherwise. -/
theorem isUnicodeSupported_follows_spec_chain (env : Env) :
    isUnicodeSupported env = unicodeSpecChain env :=
  (unicode_chain_flat env).symm

/-- Claim C2: the theme's icon style function returns exactly the
one-field record binding color to blue for info, green for success, red
for error and yellow for warning. -/
theorem theme_icon_color_exact :
    statusMessageTheme.styles.icon ⟨.info⟩ = [("color", StyleValue.str "blue")] ∧
    statusMessageTheme.styles.icon ⟨.success⟩ = [("color", StyleValue.str "green")] ∧
    statusMessageTheme.styles.icon ⟨.error⟩ = [("color", StyleValue.str "red")] ∧
    statusMessageTheme.styles.icon ⟨.warning⟩ = [("color", StyleValue.str "yellow")] :=
  ⟨rfl, rfl, rfl, rfl⟩

/-- Claim C3: for every variant and content (the empty string included),
`StatusMessage` emits exactly an outer container with the container
styles whose first child is a non-shrinking inner container with the
iconContainer styles wrapping a text node holding the selected icon with
the icon styles, and whose second child is a text node carrying the
content verbatim with the (empty) message styles; the icon node is
present whatever the content is. -/
theorem statusMessage_render_tree {α : Type} (figures : Figures)
    (variant : StatusMessageVariant) (content : α) :
    StatusMessage figures variant content =
      RenderNode.box [("columnGap", StyleValue.nat 1)]
        [ RenderNode.box [("flexShrink", StyleValue.nat 0)]
            [RenderNode.text [("color", StyleValue.str (colorByVariant variant))]
              (Sum.inl (iconByVariant figures variant))],
          RenderNode.text [] (Sum.inr content) ] :=
  rfl

/-- Claim C4: for every variant and every injected symbol set,
`StatusMessage` selects its icon by the mapping info to symbols.info,
success to symbols.tick, error to symbols.cross, warning to
symbols.warning, and the rendered output contains both the selected icon
and the given content. -/
theorem statusMessage_icon_selection {α : Type} (figures : Figures)
    (variant : StatusMessageVariant) (content : α) :
    (iconByVariant figures .info = figures.info ∧
     iconByVariant figures .success = figures.tick ∧
     iconByVariant figures .error = figures.cross ∧
     iconByVariant figures .warning = figures.warning) ∧
    Sum.inl (iconByVariant figures variant) ∈
      nodeTexts (StatusMessage figures variant content) ∧
    Sum.inr content ∈ nodeTexts (StatusMessage figures variant content) := by
  refine ⟨⟨rfl, rfl, rfl, rfl⟩, ?_, ?_⟩ <;>
    simp [StatusMessage, nodeTexts, nodesTexts, statusMessageTheme]

/-- Claim C5: the theme's container style is always exactly the record
binding columnGap to 1, iconContainer always exactly the record binding
flexShrink to 0, and message always exactly the empty record; all three
are independent of the variant carried by the props. -/
theorem theme_fixed_styles (p : StatusMessageThemeProps) :
    statusMessageTheme.styles.container p = [("columnGap", StyleValue.nat 1)] ∧
    statusMessageTheme.styles.iconContainer p = [("flexShrink", StyleValue.nat 0)] ∧
    statusMessageTheme.styles.message p = [] :=
  ⟨rfl, rfl, rfl⟩

/-- Claim C6: the sequential else-chain of spec section 4.2 is equivalent
to the flat disjunction: `isUnicodeSupported env` is true iff LANG
declares UTF-8, or COLORTERM or TERM_PROGRAM matches a recognized modern
terminal, or the platform value is not "win32". -/
theorem unicode_chain_equiv_flat_disjunction (env : Env) :
    unicodeSpecChain env = isUnicodeSupported env ∧
      (isUnicodeSupported env = true ↔
        hasUtf8Locale env = true ∨ hasModernTerminal env = true ∨
          envGet env "platform" ≠ "win32") :=
  ⟨unicode_chain_flat env, unicode_flat_iff env⟩

/-- Claim C7: whenever the `platform` key is absent or undefined (both
read back as `none`) or bound to any string other than "win32",
`isUnicodeSupported` returns true regardless of every other key. -/
theorem unicode_true_of_platform_not_win32 (env : Env)
    (h : ∀ s, env "platform" = some s → s ≠ "win32") :
    isUnicodeSupported env = true := by
  unfold isUnicodeSupported isWindows envGet
  cases hp : env "platform" with
  | none => simp
  | some s => simp [h s hp]

/-- Witness for claim C7 at the empty env: `isUnicodeSupported` of the
mapping with no keys at all is true. -/
theorem unicode_true_of_platform_not_win32_witness :
    isUnicodeSupported emptyEnv = true :=
  unicode_true_of_platform_not_win32 emptyEnv (fun _ h => by simp [emptyEnv] at h)

/-- Claim C8: when `platform` is bound to "win32" and neither LANG nor
COLORTERM nor TERM_PROGRAM carries a supporting value,
`isUnicodeSupported` returns false. -/
theorem unicode_false_on_win32 (env : Env)
    (hp : env "platform" = some "win32")
    (hl : hasUtf8Locale env = false)
    (hm : hasModernTerminal env = false) :
    isUnicodeSupported env = false := by
  unfold isUnicodeSupported isWindows envGet
  rw [hl, hm, hp]
  rfl

/-- Witness for claim C8 at the env whose only key is platform bound to
"win32". -/
theorem unicode_false_on_win32_witness :
    isUnicodeSupported (setEnv emptyEnv "platform" (some "win32")) = false :=
  unicode_false_on_win32 (setEnv emptyEnv "platform" (some "win32"))
    (by decide) (by decide) (by decide)

/-- Claim C9: two env mappings that agree on the values (absence
included) of the four keys LANG, COLORTERM, TERM_PROGRAM and platform
give the same `isUnicodeSupported` result: no other key influences it. -/
theorem unicode_noninterference (env1 env2 : Env)
    (hL : env1 "LANG" = env2 "LANG")
    (hC : env1 "COLORTERM" = env2 "COLORTERM")
    (hT : env1 "TERM_PROGRAM" = env2 "TERM_PROGRAM")
    (hP : env1 "platform" = env2 "platform") :
    isUnicodeSupported env1 = isUnicodeSupported env2 :=
  unicode_envGet_congr env1 env2
    (by unfold envGet; rw [hL]) (by unfold envGet; rw [hC])
    (by unfold envGet; rw [hT]) (by unfold envGet; rw [hP])

/-- Witness for claim C9: adding an unrelated HOME key leaves the result
unchanged. -/
theorem unicode_noninterference_witness :
    isUnicodeSupported emptyEnv =
      isUnicodeSupported (setEnv emptyEnv "HOME" (some "x")) :=
  unicode_noninterference emptyEnv (setEnv emptyEnv "HOME" (some "x"))
    (by decide) (by decide) (by decide) (by decide)

/-- Claim C10: for each of the four consulted keys, binding the key to
the empty string (or to undefined, which reads back as `none`) yields the
same `isUnicodeSupported` result as omitting the key entirely. -/
theorem unicode_empty_value_eq_absent (env : Env) (k : String)
    (_hk : k = "LANG" ∨ k = "COLORTERM" ∨ k = "TERM_PROGRAM" ∨ k = "platform") :
    isUnicodeSupported (setEnv env k (some "")) =
      isUnicodeSupported (setEnv env k none) :=
  unicode_envGet_congr (setEnv env k (some "")) (setEnv env k none)
    (envGet_setEnv_empty env k "LANG") (envGet_setEnv_empty env k "COLORTERM")
    (envGet_setEnv_empty env k "TERM_PROGRAM") (envGet_setEnv_empty env k "platform")

/-- Witness for claim C10 at the key LANG over the empty env. -/
theorem unicode_empty_value_eq_absent_witness :
    isUnicodeSupported (setEnv emptyEnv "LANG" (some "")) =
      isUnicodeSupported (setEnv emptyEnv "LANG" none) :=
  unicode_empty_value_eq_absent emptyEnv "LANG" (Or.inl rfl)

end TinkyStatusMessage
